import Mathlib

set_option maxHeartbeats 1000000

/-!
# Shallow embedding of the `nested` package (travelaudience/go-nested)

The repository implements a finite-state health monitor (`Monitor`) and an
aggregator (`Collection`) over several such monitors.  The source tree holds
several historical variants of both; the definitions below embed the variants
the verified claims refer to:

* `MonitorV1` / `setStateV1` — `Monitor.setState` from `src/monitor.go`
  (callback generation without an error counter; the idempotence guard also
  compares the error payload).
* `MonitorV2` / `setStateV2` — `Monitor.setState` from the `errCount` variant
  (`src/unnamed/part_001`, first version in the file): consecutive-error
  counter saturating at `math.MaxInt`.
* `MonitorV3` / `setStateV3` — the `Subscribe`/`SetState` variant
  (`src/unnamed/part_001`, third version): a generic `SetState` entry point
  that validates the state value against the package-level `names` map.
* `stateChanged` — `Collection.stateChanged` from `src/unnamed/part_003`,
  together with `CollectionError` and its string rendering.

Concurrency plumbing (mutexes, wait groups, goroutines) is elided: every
transition runs under the monitor's lock in the source, so a transition is a
pure step function from monitor state to monitor state plus an optional
delivered event.  A Go `panic` is modelled as a `TransResult.panic` result
carrying the receiver as mutated so far, because in Go the in-place mutations
done before a panic remain visible after `recover()`.
-/

/-- The `State` enumeration from `src/nested.go`:
`Initializing = 0`, `Ready = 1`, `Error = 2`, `Stopped = 3`. -/
inductive GState where
  | Initializing
  | Ready
  | Error
  | Stopped
deriving DecidableEq, Repr

/-- A Go `error` interface value as stored in a monitor: either `nil` or a
concrete error value (such as one produced by `errors.New`), identified by its
message text. -/
inductive GoErr where
  | nil
  | simple (msg : String)
deriving DecidableEq, Repr

/-- `Event` from `src/nested.go` (variant without an `ErrCount` field):
a single notification of a state change. -/
structure EventV1 where
  OldState : GState
  NewState : GState
  Error : GoErr
deriving DecidableEq, Repr

/-- `Event` from the `errCount` variant (`src/unnamed/part_001`, first
version), which additionally carries the updated consecutive-error count. -/
structure EventV2 where
  OldState : GState
  NewState : GState
  Error : GoErr
  ErrCount : Int
deriving DecidableEq, Repr

/-- Outcome of one transition call on a monitor: either a normal return with
the updated monitor and the event delivered to every observer (`none` when the
call was an idempotent no-op), or a panic.  The panic constructor carries the
receiver as already mutated before the panic fired. -/
inductive TransResult (M E : Type) where
  | ok (m : M) (ev : Option E)
  | panic (m : M) (msg : String)
deriving DecidableEq, Repr

/-- The monitor carried by a `TransResult` (the receiver after the call,
whether it returned normally or panicked). -/
def TransResult.monitor {M E : Type} : TransResult M E → M
  | .ok m _ => m
  | .panic m _ => m

/-- `Monitor` from `src/monitor.go`: current state, sticky error, and the
registered callbacks.  Only the callback tokens are modelled (every callback
receives the same events, so the functions themselves carry no information
for the claims). -/
structure MonitorV1 where
  state : GState
  err : GoErr
  callbacks : List Nat
deriving DecidableEq, Repr

/-- A zero-value `Monitor`: state `Initializing`, no error, no callbacks. -/
def freshV1 : MonitorV1 :=
  { state := GState.Initializing, err := GoErr.nil, callbacks := [] }

/-- `Monitor.setState` from `src/monitor.go`:
return early when the call is a no-op (same state unless it is an error
transition carrying a different error), panic when the monitor is already
stopped, otherwise commit the new state (overwriting `err` only on error
transitions) and deliver one event to every observer. -/
def setStateV1 (m : MonitorV1) (newState : GState) (newErr : GoErr) :
    TransResult MonitorV1 EventV1 :=
  if newState = m.state ∧ ¬(newState = GState.Error ∧ newErr ≠ m.err) then
    .ok m none
  else if m.state = GState.Stopped then
    .panic m ("cannot transition from stopped state")
  else
    .ok { m with
          state := newState
          err := if newState = GState.Error then newErr else m.err }
      (some { OldState := m.state, NewState := newState, Error := newErr })

/-- `Monitor.SetReady` from `src/monitor.go`. -/
def SetReadyV1 (m : MonitorV1) : TransResult MonitorV1 EventV1 :=
  setStateV1 m GState.Ready GoErr.nil

/-- `Monitor.SetError` from `src/monitor.go`. -/
def SetErrorV1 (m : MonitorV1) (e : GoErr) : TransResult MonitorV1 EventV1 :=
  setStateV1 m GState.Error e

/-- `Monitor.Stop` from `src/monitor.go`. -/
def StopV1 (m : MonitorV1) : TransResult MonitorV1 EventV1 :=
  setStateV1 m GState.Stopped GoErr.nil

/-- `math.MaxInt` on a 64-bit platform, the saturation bound used by the
`errCount` variant of `Monitor.setState`. -/
def maxInt : Int := 2 ^ 63 - 1

/-- `Monitor` from the `errCount` variant (`src/unnamed/part_001`, first
version): additionally tracks the number of consecutive errors. -/
structure MonitorV2 where
  state : GState
  err : GoErr
  errCount : Int
  callbacks : List Nat
deriving DecidableEq, Repr

/-- A zero-value `Monitor` of the `errCount` variant. -/
def freshV2 : MonitorV2 :=
  { state := GState.Initializing, err := GoErr.nil, errCount := 0
    callbacks := [] }

/-- `Monitor.setState` from the `errCount` variant
(`src/unnamed/part_001`, first version).  Faithful to the source order:
the no-op guard (`newState == m.state && newState != Error`) first, then the
`errCount` update (increment saturating at `math.MaxInt` on error transitions,
reset to 0 otherwise), and only after that the stopped-state panic — so the
`errCount` mutation survives the panic. -/
def setStateV2 (m : MonitorV2) (newState : GState) (newErr : GoErr) :
    TransResult MonitorV2 EventV2 :=
  if newState = m.state ∧ newState ≠ GState.Error then
    .ok m none
  else
    let ec : Int :=
      if newState = GState.Error then
        (if m.errCount < maxInt then m.errCount + 1 else m.errCount)
      else 0
    let m1 : MonitorV2 := { m with errCount := ec }
    if m.state = GState.Stopped then
      .panic m1 ("cannot transition from stopped state")
    else
      .ok { m1 with
            state := newState
            err := if newState = GState.Error then newErr else m.err }
        (some { OldState := m.state, NewState := newState, Error := newErr
                ErrCount := ec })

/-- `Monitor.SetReady` (errCount variant). -/
def SetReadyV2 (m : MonitorV2) : TransResult MonitorV2 EventV2 :=
  setStateV2 m GState.Ready GoErr.nil

/-- `Monitor.SetError` (errCount variant). -/
def SetErrorV2 (m : MonitorV2) (e : GoErr) : TransResult MonitorV2 EventV2 :=
  setStateV2 m GState.Error e

/-- `Monitor.Stop` (errCount variant). -/
def StopV2 (m : MonitorV2) : TransResult MonitorV2 EventV2 :=
  setStateV2 m GState.Stopped GoErr.nil

/-- `Monitor.GetState` (errCount variant). -/
def GetStateV2 (m : MonitorV2) : GState := m.state

/-- `Monitor.Err` (errCount variant). -/
def ErrV2 (m : MonitorV2) : GoErr := m.err

/-- `Monitor.ErrCount` (errCount variant). -/
def ErrCountV2 (m : MonitorV2) : Int := m.errCount

/-- One call to a public transition method of a monitor. -/
inductive Call where
  | SetReady
  | SetError (e : GoErr)
  | Stop
deriving DecidableEq, Repr

/-- The `(newState, newErr)` pair a public transition method passes down to
`setState`. -/
def callArgs : Call → GState × GoErr
  | .SetReady => (GState.Ready, GoErr.nil)
  | .SetError e => (GState.Error, e)
  | .Stop => (GState.Stopped, GoErr.nil)

/-- Dispatch one call on a `MonitorV1`. -/
def applyCallV1 (m : MonitorV1) : Call → TransResult MonitorV1 EventV1
  | .SetReady => SetReadyV1 m
  | .SetError e => SetErrorV1 m e
  | .Stop => StopV1 m

/-- Run a sequence of calls on a `MonitorV1`, collecting the events delivered
to a registered observer in order.  A panic aborts the sequence; the third
component records the panic message, if any. -/
def runV1 (m : MonitorV1) : List Call → MonitorV1 × List EventV1 × Option String
  | [] => (m, [], none)
  | c :: cs =>
    match applyCallV1 m c with
    | .ok m1 ev =>
      let r := runV1 m1 cs
      (r.1, ev.toList ++ r.2.1, r.2.2)
    | .panic m1 msg => (m1, [], some msg)

/-- Dispatch one call on a `MonitorV2`. -/
def applyCallV2 (m : MonitorV2) : Call → TransResult MonitorV2 EventV2
  | .SetReady => SetReadyV2 m
  | .SetError e => SetErrorV2 m e
  | .Stop => StopV2 m

/-- Run a sequence of calls on a `MonitorV2`, collecting delivered events. -/
def runV2 (m : MonitorV2) : List Call → MonitorV2 × List EventV2 × Option String
  | [] => (m, [], none)
  | c :: cs =>
    match applyCallV2 m c with
    | .ok m1 ev =>
      let r := runV2 m1 cs
      (r.1, ev.toList ++ r.2.1, r.2.2)
    | .panic m1 msg => (m1, [], some msg)

/-- `Monitor` from the `Subscribe`/`SetState` variant
(`src/unnamed/part_001`, third version).  Its `state` field is the raw
machine value of the Go `State` type (so undefined values are representable);
per the enumeration in `src/nested.go`, `Stopped = 3`.  Only the subscription
ids are modelled (every subscription channel receives the same notification
payload). -/
structure MonitorV3 where
  state : Int
  err : GoErr
  subscriptions : List String
deriving DecidableEq, Repr

/-- Membership in the package-level `names` map of `src/nested.go`: exactly
the four defined states `Initializing = 0`, `Ready = 1`, `Error = 2`,
`Stopped = 3` are keys. -/
def namesDom (n : Int) : Bool :=
  n == 0 || n == 1 || n == 2 || n == 3

/-- `Monitor.setState` from the `Subscribe`/`SetState` variant:
first reject state values outside the `names` map
(`panic(fmt.Sprintf("state %d is undefined", newState))`), then the no-op
guard (`newState == m.state && newErr == m.err`), then the stopped-state
check (a silent return when `ignoreStopped` is set, a panic otherwise), then
the commit `m.state, m.err = newState, newErr`, the notification broadcast of
`(newState, newErr)`, and finally the subscriptions are dropped when the new
state is `Stopped`. -/
def setStateV3 (m : MonitorV3) (newState : Int) (newErr : GoErr)
    (ignoreStopped : Bool) : TransResult MonitorV3 (Int × GoErr) :=
  if namesDom newState = false then
    .panic m ("state " ++ toString newState ++ " is undefined")
  else if newState = m.state ∧ newErr = m.err then
    .ok m none
  else if m.state = 3 then
    (if ignoreStopped then .ok m none
     else .panic m ("cannot transition from stopped state"))
  else
    .ok { m with
          state := newState
          err := newErr
          subscriptions := if newState = 3 then [] else m.subscriptions }
      (some (newState, newErr))

/-- `Monitor.SetState` from the `Subscribe`/`SetState` variant: the public
entry point, which never ignores the stopped state. -/
def SetStateV3 (m : MonitorV3) (newState : Int) (newErr : GoErr) :
    TransResult MonitorV3 (Int × GoErr) :=
  setStateV3 m newState newErr false

/-- A member service of a `Collection`, as the aggregation routine observes
it: its current state (`GetState()`) and its current error (`Err()`). -/
structure MemberSvc where
  state : GState
  err : GoErr
deriving DecidableEq, Repr

/-- The `services` map of a `Collection` (`map[string]Service`), modelled as
an association list in iteration order.  Labels are unique by construction
(`Add` refuses duplicates). -/
abbrev Services := List (String × MemberSvc)

/-- The error the aggregation routine hands to the embedded monitor:
either a `CollectionError` (whose `Errors` map is the label-indexed list of
the erroring members' errors) or the distinguished `ErrStoppedServices`
value (`errors.New("there are stopped services")`). -/
inductive CompErr where
  | aggregate (errs : List (String × GoErr))
  | stoppedServices
deriving DecidableEq, Repr

/-- The transition the aggregation routine commits on the embedded monitor:
`c.Monitor.SetReady()`, `c.Monitor.SetError(...)`, or `c.Monitor.Stop()`. -/
inductive CompositeAction where
  | setReady
  | setError (e : CompErr)
  | stop
deriving DecidableEq, Repr

/-- The member loop of `Collection.stateChanged` (`src/unnamed/part_003`),
with its accumulators made explicit: `allStopped` starts `true`, `anyStopped`
starts `false`, and `errs` collects `(label, member.Err())` for every member
found in the `Error` state.  Any member found `Initializing` returns
immediately with no update.  After the loop: a non-empty `errs` yields
`SetError(CollectionError{Errors: errs})`; otherwise all members stopped
yields `Stop()`; otherwise any member stopped yields
`SetError(ErrStoppedServices)`; otherwise `SetReady()`. -/
def stateChangedLoop :
    Services → Bool → Bool → List (String × GoErr) → Option CompositeAction
  | [], allStopped, anyStopped, errs =>
    if errs.length > 0 then
      some (.setError (.aggregate errs))
    else if allStopped then
      some .stop
    else if anyStopped then
      some (.setError .stoppedServices)
    else
      some .setReady
  | (label, s) :: rest, allStopped, anyStopped, errs =>
    match s.state with
    | GState.Initializing => none
    | GState.Ready => stateChangedLoop rest false anyStopped errs
    | GState.Error => stateChangedLoop rest false anyStopped (errs ++ [(label, s.err)])
    | GState.Stopped => stateChangedLoop rest allStopped true errs

/-- `Collection.stateChanged` (`src/unnamed/part_003`): the recomputation run
on every member notification and once at `Run()`.  Returns `none` when the
routine returns without updating the embedded monitor, and `some a` when it
commits the transition `a`. -/
def stateChanged (services : Services) : Option CompositeAction :=
  if services.length = 0 then none
  else stateChangedLoop services true false []

/-- The label-indexed errors of the currently-erroring members, in member
order: what `stateChanged` accumulates into its `errs` map. -/
def erroringMembers (svcs : Services) : List (String × GoErr) :=
  svcs.filterMap fun p =>
    if p.2.state = GState.Error then some (p.1, p.2.err) else none

/-- The recompute policy stated declaratively (the amended form of the
claim): an empty collection or any `Initializing` member means no update;
otherwise erroring members force the aggregate error; otherwise all members
stopped means `Stop`; otherwise any member stopped means the distinguished
partial-shutdown error; otherwise `SetReady`. -/
def overallAction (svcs : Services) : Option CompositeAction :=
  if svcs.length = 0 then none
  else if svcs.any (fun p => p.2.state == GState.Initializing) then none
  else if (erroringMembers svcs).length > 0 then
    some (.setError (.aggregate (erroringMembers svcs)))
  else if svcs.all (fun p => p.2.state == GState.Stopped) then
    some .stop
  else if svcs.any (fun p => p.2.state == GState.Stopped) then
    some (.setError .stoppedServices)
  else
    some .setReady

/-- The recompute policy exactly as the claim words it, clause by clause in
the claim's order: any `Error` member first, then the some-but-not-all
stopped case, then all stopped, then the `Initializing` deferral, then
`Ready`.  Defined only to be compared against `stateChanged`. -/
def claimRecomputePolicy (svcs : Services) : Option CompositeAction :=
  if svcs.any (fun p => p.2.state == GState.Error) then
    some (.setError (.aggregate (erroringMembers svcs)))
  else if (svcs.any fun p => p.2.state == GState.Stopped) ∧
      ¬(svcs.all fun p => p.2.state == GState.Stopped) then
    some (.setError .stoppedServices)
  else if svcs.all (fun p => p.2.state == GState.Stopped) then
    some .stop
  else if svcs.any (fun p => p.2.state == GState.Initializing) then
    none
  else
    some .setReady

/-- `Collection.Add` (`src/unnamed/part_003`): on the first addition the
map is initialized and the service inserted; afterwards a reused label
panics with `add: label %q already in use` before any mutation, and a fresh
label is inserted.  (Observer hookup of a running collection is elided.) -/
def addService (svcs : Services) (label : String) (s : MemberSvc) :
    Except String Services :=
  if svcs = [] then
    Except.ok [(label, s)]
  else if (List.lookup label svcs).isSome then
    Except.error ("add: label \"" ++ label ++ "\" already in use")
  else
    Except.ok (svcs ++ [(label, s)])

/-- `err.Error()` for the modelled Go error values.  (Go would panic when
calling `Error()` on a `nil` interface value; the placeholder text keeps the
function total and is never hit by erroring members that carry a real
error.) -/
def renderGoErr : GoErr → String
  | GoErr.nil => "<nil>"
  | GoErr.simple msg => msg

/-- `CollectionError` (`src/unnamed/part_003`): the label-indexed errors of
the erroring members.  The Go field is a map; the model keeps the entries as
a list whose order stands for the map's (arbitrary) iteration order. -/
structure CollectionError where
  Errors : List (String × GoErr)
deriving DecidableEq, Repr

/-- The per-member message lines built by `CollectionError.Error`
(`id + ": " + err.Error()`), after `sort.Strings`. -/
def collectionErrorLines (ce : CollectionError) : List String :=
  (ce.Errors.map fun p => p.1 ++ ": " ++ renderGoErr p.2).mergeSort

/-- `CollectionError.Error` (`src/unnamed/part_003`): render one line per
erroring member, sort the lines, and join them with newlines. -/
def collectionErrorMsg (ce : CollectionError) : String :=
  String.intercalate ("\n") (collectionErrorLines ce)

/-- Did the call return normally AND deliver an event (an accepted
transition, as opposed to a no-op or a panic)? -/
def TransResult.isAccepted {M E : Type} : TransResult M E → Bool
  | .ok _ (some _) => true
  | .ok _ none => false
  | .panic _ _ => false

/-- A stopped Monitor (errCount variant) as any run of the public operations
leaves it: after `Stop()`, `errCount` is 0, every non-error transition having
reset it. -/
def stoppedV2 : MonitorV2 :=
  { state := GState.Stopped, err := GoErr.nil, errCount := 0, callbacks := [] }

/-- C2: on an already-stopped Monitor (errCount variant) `SetError` does
panic with the specified message, and a repeated `Stop()` is a silent no-op —
but the panicking call does NOT leave every field unchanged: the error count
is incremented from 0 to 1 before the stopped-state check fires, contradicting
both the claimed invariant and `ErrCount`'s own documentation ("If the service
is not in Error state, ErrCount returns 0"). -/
theorem claim2_errCount_mutated_on_stopped_panic :
    SetErrorV2 stoppedV2 (GoErr.simple ("boom")) =
      TransResult.panic { stoppedV2 with errCount := 1 }
        ("cannot transition from stopped state") ∧
    ErrCountV2 (SetErrorV2 stoppedV2 (GoErr.simple ("boom"))).monitor = 1 ∧
    ErrCountV2 stoppedV2 = 0 ∧
    StopV2 stoppedV2 = TransResult.ok stoppedV2 none := by
  refine ⟨?_, ?_, rfl, ?_⟩ <;> decide

/-- C3: from any non-stopped Monitor (errCount variant), `SetError(e)`
followed by `SetReady()` are both accepted transitions, and afterwards the
state is `Ready`, the error count is 0, and `Err()` still returns `e`: the
non-error transition does not clear the sticky error. -/
theorem claim3_sticky_error (m : MonitorV2) (e : GoErr)
    (h : m.state ≠ GState.Stopped) :
    (SetErrorV2 m e).isAccepted = true ∧
    (SetReadyV2 (SetErrorV2 m e).monitor).isAccepted = true ∧
    GetStateV2 (SetReadyV2 (SetErrorV2 m e).monitor).monitor = GState.Ready ∧
    ErrCountV2 (SetReadyV2 (SetErrorV2 m e).monitor).monitor = 0 ∧
    ErrV2 (SetReadyV2 (SetErrorV2 m e).monitor).monitor = e := by
  have h1 : SetErrorV2 m e =
      TransResult.ok
        { state := GState.Error
          err := e
          errCount := if m.errCount < maxInt then m.errCount + 1 else m.errCount
          callbacks := m.callbacks }
        (some
          { OldState := m.state
            NewState := GState.Error
            Error := e
            ErrCount := if m.errCount < maxInt then m.errCount + 1 else m.errCount }) := by
    simp [SetErrorV2, setStateV2, h]
  rw [h1]
  simp [SetReadyV2, setStateV2, TransResult.monitor, TransResult.isAccepted,
    GetStateV2, ErrCountV2, ErrV2]

/-- Witness for C3 at a concrete input. -/
theorem claim3_sticky_error_witness :
    ErrV2 (SetReadyV2 (SetErrorV2 freshV2 (GoErr.simple ("boom"))).monitor).monitor =
      GoErr.simple ("boom") :=
  (claim3_sticky_error freshV2 (GoErr.simple ("boom")) (by decide)).2.2.2.2

/-- `List.lookup` of a fresh label after appending it. -/
theorem lookup_append_self (svcs : Services) (label : String) (s : MemberSvc)
    (h : List.lookup label svcs = none) :
    List.lookup label (svcs ++ [(label, s)]) = some s := by
  induction svcs with
  | nil => simp [List.lookup]
  | cons p rest ih =>
    rw [List.cons_append, List.lookup]
    rw [List.lookup] at h
    cases hb : label == p.1 with
    | true => simp [hb] at h
    | false =>
      simp only [hb] at h ⊢
      exact ih h

/-- `List.lookup` of any other label is untouched by appending a fresh one. -/
theorem lookup_append_other (svcs : Services) (label l2 : String) (s : MemberSvc)
    (h : l2 ≠ label) :
    List.lookup l2 (svcs ++ [(label, s)]) = List.lookup l2 svcs := by
  induction svcs with
  | nil =>
    have hb : (l2 == label) = false := by
      simp [h]
    simp [List.lookup, hb]
  | cons p rest ih =>
    rw [List.cons_append, List.lookup, List.lookup]
    cases hb : l2 == p.1 with
    | true => simp [hb]
    | false =>
      simp only [hb]
      exact ih

/-- C6: `Collection.Add` with a label already in use fails with the usage
fault `add: label "<label>" already in use` (naming the offending label)
and commits nothing, while a fresh label always succeeds and inserts exactly
one entry: the map grows by one, the new label maps to the added service,
and every other label's binding is unchanged. -/
theorem claim6_add_duplicate_label (svcs : Services) (label : String)
    (s s0 : MemberSvc) :
    (List.lookup label svcs = some s0 →
      addService svcs label s =
        Except.error ("add: label \"" ++ label ++ "\" already in use")) ∧
    (List.lookup label svcs = none →
      addService svcs label s = Except.ok (svcs ++ [(label, s)]) ∧
      (svcs ++ [(label, s)]).length = svcs.length + 1 ∧
      List.lookup label (svcs ++ [(label, s)]) = some s ∧
      ∀ l2 : String, l2 ≠ label →
        List.lookup l2 (svcs ++ [(label, s)]) = List.lookup l2 svcs) := by
  constructor
  · intro h
    have hne : svcs ≠ [] := by
      intro hnil
      rw [hnil] at h
      simp [List.lookup] at h
    simp [addService, hne, h]
  · intro h
    refine ⟨?_, by simp, lookup_append_self svcs label s h,
      fun l2 hl2 => lookup_append_other svcs label l2 s hl2⟩
    by_cases hnil : svcs = []
    · subst hnil
      simp [addService]
    · simp [addService, hnil, h]

/-- Witness for C6 at concrete inputs. -/
theorem claim6_add_duplicate_label_witness :
    addService [("a", { state := GState.Ready, err := GoErr.nil })] "a"
        { state := GState.Initializing, err := GoErr.nil } =
      Except.error ("add: label \"" ++ "a" ++ "\" already in use") :=
  (claim6_add_duplicate_label [("a", { state := GState.Ready, err := GoErr.nil })]
    "a" { state := GState.Initializing, err := GoErr.nil }
    { state := GState.Ready, err := GoErr.nil }).1 (by decide)

/-- C7: the generic `SetState` entry point of the `Subscribe` variant rejects
every state value outside the closed enumeration (`names` has exactly the
keys 0..3) with the fatal fault `state <n> is undefined`, identifying the
undefined value, whatever the monitor's current state — including an already
stopped monitor — and mutates nothing (the panic precedes every other
check). -/
theorem claim7_undefined_state_rejected (m : MonitorV3) (n : Int) (e : GoErr)
    (h : namesDom n = false) :
    SetStateV3 m n e =
      TransResult.panic m ("state " ++ toString n ++ " is undefined") := by
  simp [SetStateV3, setStateV3, h]

/-- Witness for C7: state value 7 on an already-stopped monitor. -/
theorem claim7_undefined_state_rejected_witness :
    SetStateV3 { state := 3, err := GoErr.nil, subscriptions := [] } 7 GoErr.nil =
      TransResult.panic { state := 3, err := GoErr.nil, subscriptions := [] }
        ("state " ++ toString (7 : Int) ++ " is undefined") :=
  claim7_undefined_state_rejected
    { state := 3, err := GoErr.nil, subscriptions := [] } 7 GoErr.nil (by decide)

/-- C10: the `Error` field of a delivered event equals exactly the error
argument of the transition call that produced it: for any accepted
`setState`, the event carries `newErr`; in particular `SetReady` and `Stop`
events carry `nil` whatever sticky error is still stored in `err`, and a
`SetError(e)` event carries `e`. -/
theorem claim10_event_error_is_argument :
    (∀ (m : MonitorV1) (s : GState) (e : GoErr) (m2 : MonitorV1) (ev : EventV1),
      setStateV1 m s e = TransResult.ok m2 (some ev) → ev.Error = e) ∧
    (∀ (m m2 : MonitorV1) (ev : EventV1),
      SetReadyV1 m = TransResult.ok m2 (some ev) → ev.Error = GoErr.nil) ∧
    (∀ (m m2 : MonitorV1) (ev : EventV1),
      StopV1 m = TransResult.ok m2 (some ev) → ev.Error = GoErr.nil) ∧
    (∀ (m m2 : MonitorV1) (e : GoErr) (ev : EventV1),
      SetErrorV1 m e = TransResult.ok m2 (some ev) → ev.Error = e) := by
  have base : ∀ (m : MonitorV1) (s : GState) (e : GoErr) (m2 : MonitorV1)
      (ev : EventV1),
      setStateV1 m s e = TransResult.ok m2 (some ev) → ev.Error = e := by
    intro m s e m2 ev h
    unfold setStateV1 at h
    split at h
    · simp at h
    · split at h
      · simp at h
      · simp only [TransResult.ok.injEq, Option.some.injEq] at h
        rw [← h.2]
  exact ⟨base, fun m m2 ev h => base m GState.Ready GoErr.nil m2 ev h,
    fun m m2 ev h => base m GState.Stopped GoErr.nil m2 ev h,
    fun m m2 e ev h => base m GState.Error e m2 ev h⟩

/-- Witness for C10: a `SetReady` on a monitor still holding a sticky error
delivers an event whose `Error` field is `nil`. -/
theorem claim10_event_error_is_argument_witness :
    EventV1.Error
        { OldState := GState.Error, NewState := GState.Ready, Error := GoErr.nil } =
      GoErr.nil :=
  claim10_event_error_is_argument.2.1
    { state := GState.Error, err := GoErr.simple ("old"), callbacks := [] }
    { state := GState.Ready, err := GoErr.simple ("old"), callbacks := [] }
    { OldState := GState.Error, NewState := GState.Ready, Error := GoErr.nil }
    (by decide)

/-- The committed monitor of an accepted `setState` (src/monitor.go): the new
state, with `err` overwritten exactly on error transitions; callbacks
untouched. -/
def commitV1 (m : MonitorV1) (s : GState) (e : GoErr) : MonitorV1 :=
  { m with state := s, err := if s = GState.Error then e else m.err }

/-- The event sequence one registered observer should see, stated from the
claim's wording: each call that is not a repetition of the already-current
state (with no new error information) contributes exactly one event carrying
the state before the call, the target state, and the call's error payload;
a repeat call contributes nothing. -/
def traceV1 (m : MonitorV1) : List Call → List EventV1
  | [] => []
  | c :: cs =>
    if (callArgs c).1 = m.state ∧
        ¬((callArgs c).1 = GState.Error ∧ (callArgs c).2 ≠ m.err) then
      traceV1 m cs
    else
      { OldState := m.state, NewState := (callArgs c).1, Error := (callArgs c).2 } ::
        traceV1 (commitV1 m (callArgs c).1 (callArgs c).2) cs

/-- Dispatching a call is `setState` on the call's arguments. -/
theorem applyCallV1_eq (m : MonitorV1) (c : Call) :
    applyCallV1 m c = setStateV1 m (callArgs c).1 (callArgs c).2 := by
  cases c <;> rfl

/-- Three-way case analysis of `setStateV1`, mirroring the source's control
flow: no-op return, stopped-state panic, or accepted commit. -/
theorem setStateV1_spec (m : MonitorV1) (s : GState) (e : GoErr) :
    (s = m.state ∧ ¬(s = GState.Error ∧ e ≠ m.err) ∧
      setStateV1 m s e = TransResult.ok m none) ∨
    (¬(s = m.state ∧ ¬(s = GState.Error ∧ e ≠ m.err)) ∧ m.state = GState.Stopped ∧
      setStateV1 m s e = TransResult.panic m ("cannot transition from stopped state")) ∨
    (¬(s = m.state ∧ ¬(s = GState.Error ∧ e ≠ m.err)) ∧ m.state ≠ GState.Stopped ∧
      setStateV1 m s e =
        TransResult.ok (commitV1 m s e)
          (some { OldState := m.state, NewState := s, Error := e })) := by
  unfold setStateV1
  by_cases h1 : s = m.state ∧ ¬(s = GState.Error ∧ e ≠ m.err)
  · exact Or.inl ⟨h1.1, h1.2, by rw [if_pos h1]⟩
  · by_cases h2 : m.state = GState.Stopped
    · exact Or.inr (Or.inl ⟨h1, h2, by rw [if_neg h1, if_pos h2]⟩)
    · exact Or.inr (Or.inr ⟨h1, h2, by rw [if_neg h1, if_neg h2]; rfl⟩)

/-- C5: (no-op half) a call repeating the already-current state with no new
error information returns the monitor with every field unchanged and delivers
no event; (trace half) in any panic-free run the delivered event list is
exactly the claim's expected trace: one event per accepted transition, each
carrying the correct old state, new state and error payload, and nothing for
the no-op calls. -/
theorem claim5_events_match_transitions :
    (∀ (m : MonitorV1) (s : GState) (e : GoErr),
      s = m.state → ¬(s = GState.Error ∧ e ≠ m.err) →
      setStateV1 m s e = TransResult.ok m none) ∧
    (∀ (m : MonitorV1) (calls : List Call),
      (runV1 m calls).2.2 = none →
      (runV1 m calls).2.1 = traceV1 m calls) := by
  constructor
  · intro m s e h1 h2
    unfold setStateV1
    rw [if_pos ⟨h1, h2⟩]
  · intro m calls
    induction calls generalizing m with
    | nil => intro _; rfl
    | cons c cs ih =>
      intro hnp
      rcases setStateV1_spec m (callArgs c).1 (callArgs c).2 with
        ⟨hg1, hg2, heq⟩ | ⟨hg, hst, heq⟩ | ⟨hg, hst, heq⟩
      · rw [runV1, applyCallV1_eq, heq] at hnp ⊢
        rw [traceV1, if_pos ⟨hg1, hg2⟩]
        simpa using ih m hnp
      · rw [runV1, applyCallV1_eq, heq] at hnp
        simp at hnp
      · rw [runV1, applyCallV1_eq, heq] at hnp ⊢
        rw [traceV1, if_neg hg]
        simpa using ih (commitV1 m (callArgs c).1 (callArgs c).2) hnp

/-- Witness for C5: a concrete panic-free run (with one repeated `SetReady`)
whose event list is the expected trace. -/
theorem claim5_events_match_transitions_witness :
    (runV1 freshV1
        [Call.SetReady, Call.SetReady, Call.SetError (GoErr.simple ("e")), Call.Stop]).2.1 =
      traceV1 freshV1
        [Call.SetReady, Call.SetReady, Call.SetError (GoErr.simple ("e")), Call.Stop] :=
  claim5_events_match_transitions.2 freshV1
    [Call.SetReady, Call.SetReady, Call.SetError (GoErr.simple ("e")), Call.Stop]
    (by decide)

/-- The public transition methods never target the `Initializing` state. -/
theorem callArgs_fst_ne_initializing (c : Call) :
    (callArgs c).1 ≠ GState.Initializing := by
  cases c <;> simp [callArgs]

/-- Every event of a run has a non-`Initializing` new state (the wrappers
only ever pass `Ready`, `Error` or `Stopped` to `setState`). -/
theorem runV1_newState_ne_init (m : MonitorV1) (calls : List Call) :
    ∀ ev ∈ (runV1 m calls).2.1, ev.NewState ≠ GState.Initializing := by
  induction calls generalizing m with
  | nil => intro ev hev; simp [runV1] at hev
  | cons c cs ih =>
    intro ev hev
    rcases setStateV1_spec m (callArgs c).1 (callArgs c).2 with
      ⟨_, _, heq⟩ | ⟨_, _, heq⟩ | ⟨_, _, heq⟩ <;>
      rw [runV1, applyCallV1_eq, heq] at hev
    · exact ih m ev (by simpa using hev)
    · simp at hev
    · simp only [Option.toList_some, List.cons_append, List.nil_append,
        List.mem_cons] at hev
      rcases hev with hev | hev
      · rw [hev]
        exact callArgs_fst_ne_initializing c
      · exact ih _ ev hev

/-- Once the monitor has left `Initializing`, it never returns: the final
state of any run is non-`Initializing` and every event's old state is
non-`Initializing`. -/
theorem runV1_preserves_ne_init (m : MonitorV1) (calls : List Call)
    (h : m.state ≠ GState.Initializing) :
    (runV1 m calls).1.state ≠ GState.Initializing ∧
    ∀ ev ∈ (runV1 m calls).2.1, ev.OldState ≠ GState.Initializing := by
  induction calls generalizing m with
  | nil => exact ⟨h, by intro ev hev; simp [runV1] at hev⟩
  | cons c cs ih =>
    rcases setStateV1_spec m (callArgs c).1 (callArgs c).2 with
      ⟨_, _, heq⟩ | ⟨_, _, heq⟩ | ⟨_, _, heq⟩ <;>
      rw [runV1, applyCallV1_eq, heq]
    · exact ⟨(ih m h).1, by simpa using (ih m h).2⟩
    · exact ⟨h, by intro ev hev; simp at hev⟩
    · have hm1 : (commitV1 m (callArgs c).1 (callArgs c).2).state ≠
          GState.Initializing := callArgs_fst_ne_initializing c
      refine ⟨(ih _ hm1).1, ?_⟩
      intro ev hev
      simp only [Option.toList_some, List.cons_append, List.nil_append,
        List.mem_cons] at hev
      rcases hev with hev | hev
      · rw [hev]
        exact h
      · exact (ih _ hm1).2 ev hev

/-- A run from a fresh monitor starts with one accepted transition out of
`Initializing` (the first call is never a no-op and never panics), then
continues from the committed state. -/
theorem runV1_fresh_cons (c : Call) (cs : List Call) :
    runV1 freshV1 (c :: cs) =
      ((runV1 (commitV1 freshV1 (callArgs c).1 (callArgs c).2) cs).1,
        { OldState := GState.Initializing, NewState := (callArgs c).1,
          Error := (callArgs c).2 } ::
          (runV1 (commitV1 freshV1 (callArgs c).1 (callArgs c).2) cs).2.1,
        (runV1 (commitV1 freshV1 (callArgs c).1 (callArgs c).2) cs).2.2) := by
  cases c <;> rfl

/-- C9: in any run of the public transition operations from a freshly
constructed Monitor, no delivered event has `Initializing` as its new state,
only the very first delivered event can have `Initializing` as its old
state, and once any event has been delivered the monitor's state is no
longer `Initializing`. -/
theorem claim9_initializing_only_initial (calls : List Call) :
    ((runV1 freshV1 calls).2.1.all fun ev => ev.NewState != GState.Initializing) = true ∧
    (((runV1 freshV1 calls).2.1.drop 1).all
      fun ev => ev.OldState != GState.Initializing) = true ∧
    ((runV1 freshV1 calls).2.1 = [] ∨
      (runV1 freshV1 calls).1.state ≠ GState.Initializing) := by
  refine ⟨?_, ?_, ?_⟩
  · simp only [List.all_eq_true, bne_iff_ne, ne_eq]
    intro ev hev
    exact runV1_newState_ne_init freshV1 calls ev hev
  · cases calls with
    | nil => rfl
    | cons c cs =>
      rw [runV1_fresh_cons]
      simp only [List.drop_succ_cons, List.drop_zero, List.all_eq_true,
        bne_iff_ne, ne_eq]
      intro ev hev
      exact (runV1_preserves_ne_init _ cs (callArgs_fst_ne_initializing c)).2 ev hev
  · cases calls with
    | nil => exact Or.inl rfl
    | cons c cs =>
      rw [runV1_fresh_cons]
      exact Or.inr (runV1_preserves_ne_init _ cs (callArgs_fst_ne_initializing c)).1

/-- The `errCount` value `setState` (errCount variant) writes for a given
target state: saturating increment on error transitions, reset to 0
otherwise. -/
def ecUpdate (m : MonitorV2) (s : GState) : Int :=
  if s = GState.Error then
    (if m.errCount < maxInt then m.errCount + 1 else m.errCount)
  else 0

/-- The committed monitor of an accepted `setState` (errCount variant). -/
def commitV2 (m : MonitorV2) (s : GState) (e : GoErr) : MonitorV2 :=
  { state := s
    err := if s = GState.Error then e else m.err
    errCount := ecUpdate m s
    callbacks := m.callbacks }

/-- Three-way case analysis of the errCount variant of `setState`: no-op
return, stopped-state panic (with the error count already mutated), or
accepted commit. -/
theorem setStateV2_spec (m : MonitorV2) (s : GState) (e : GoErr) :
    (s = m.state ∧ s ≠ GState.Error ∧ setStateV2 m s e = TransResult.ok m none) ∨
    (¬(s = m.state ∧ s ≠ GState.Error) ∧ m.state = GState.Stopped ∧
      setStateV2 m s e =
        TransResult.panic { m with errCount := ecUpdate m s }
          ("cannot transition from stopped state")) ∨
    (¬(s = m.state ∧ s ≠ GState.Error) ∧ m.state ≠ GState.Stopped ∧
      setStateV2 m s e =
        TransResult.ok (commitV2 m s e)
          (some { OldState := m.state, NewState := s, Error := e
                  ErrCount := ecUpdate m s })) := by
  unfold setStateV2
  by_cases h1 : s = m.state ∧ s ≠ GState.Error
  · exact Or.inl ⟨h1.1, h1.2, by rw [if_pos h1]⟩
  · by_cases h2 : m.state = GState.Stopped
    · refine Or.inr (Or.inl ⟨h1, h2, ?_⟩)
      rw [if_neg h1]
      simp only [ecUpdate, if_pos h2]
    · refine Or.inr (Or.inr ⟨h1, h2, ?_⟩)
      rw [if_neg h1]
      simp only [if_neg h2]
      rfl

/-- The invariant every reachable errCount-variant monitor satisfies: the
error count is a machine integer in range, and it is 0 whenever the monitor
is not in the `Error` state. -/
def invV2 (m : MonitorV2) : Prop :=
  0 ≤ m.errCount ∧ m.errCount ≤ maxInt ∧
    (m.state ≠ GState.Error → m.errCount = 0)

/-- The error count the claim predicts after a sequence of calls: a
saturating increment (at the representable maximum) for each transition into
the error state, a reset to 0 for each transition to any other state. -/
def expectedErrCount : Int → List Call → Int
  | c, [] => c
  | c, Call.SetError _ :: cs => expectedErrCount (min maxInt (c + 1)) cs
  | _, Call.SetReady :: cs => expectedErrCount 0 cs
  | _, Call.Stop :: cs => expectedErrCount 0 cs

/-- The conditional increment of the source is the claim's saturating
increment, for an in-range counter. -/
theorem satIncr_eq_min (c : Int) (h1 : c ≤ maxInt) :
    (if c < maxInt then c + 1 else c) = min maxInt (c + 1) := by
  by_cases h : c < maxInt
  · rw [if_pos h, min_eq_right (by omega)]
  · rw [if_neg h, min_eq_left (by omega)]
    omega

/-- C4: over any panic-free call sequence on a monitor satisfying the
reachability invariant, `ErrCount()` afterwards equals the claim's count:
the number of consecutive transitions into `Error` since the last non-error
transition, incremented with saturation at the representable maximum and
reset to 0 by any transition to a non-error state. -/
theorem claim4_err_count (m : MonitorV2) (calls : List Call)
    (hinv : invV2 m) (hnp : (runV2 m calls).2.2 = none) :
    ErrCountV2 (runV2 m calls).1 = expectedErrCount m.errCount calls := by
  induction calls generalizing m with
  | nil => rfl
  | cons c cs ih =>
    have happ : applyCallV2 m c = setStateV2 m (callArgs c).1 (callArgs c).2 := by
      cases c <;> rfl
    rcases setStateV2_spec m (callArgs c).1 (callArgs c).2 with
      ⟨hg1, hg2, heq⟩ | ⟨hg, hst, heq⟩ | ⟨hg, hst, heq⟩
    · -- no-op: the monitor is unchanged, and since its state is not Error,
      -- its error count is already 0, which is what a reset would give.
      rw [runV2, happ, heq] at hnp ⊢
      have hc0 : m.errCount = 0 := hinv.2.2 (by rw [← hg1]; exact hg2)
      have hexp : expectedErrCount m.errCount (c :: cs) =
          expectedErrCount m.errCount cs := by
        cases c with
        | SetReady => rw [expectedErrCount, hc0]
        | SetError e => exact absurd rfl hg2
        | Stop => rw [expectedErrCount, hc0]
      rw [hexp]
      exact ih m hinv hnp
    · rw [runV2, happ, heq] at hnp
      simp at hnp
    · rw [runV2, happ, heq] at hnp ⊢
      have hinv2 : invV2 (commitV2 m (callArgs c).1 (callArgs c).2) := by
        cases c with
        | SetReady =>
          exact ⟨by simp [commitV2, ecUpdate, callArgs],
            by simp [commitV2, ecUpdate, callArgs, maxInt], fun _ => by
              simp [commitV2, ecUpdate, callArgs]⟩
        | SetError e =>
          refine ⟨?_, ?_, fun hne => absurd rfl hne⟩
          · simp only [commitV2, ecUpdate, callArgs]
            have := hinv.1
            split <;> [skip; omega]
            split <;> omega
          · simp only [commitV2, ecUpdate, callArgs]
            have := hinv.2.1
            split <;> [skip; simp [maxInt]]
            split <;> omega
        | Stop =>
          exact ⟨by simp [commitV2, ecUpdate, callArgs],
            by simp [commitV2, ecUpdate, callArgs, maxInt], fun _ => by
              simp [commitV2, ecUpdate, callArgs]⟩
      have hrec := ih (commitV2 m (callArgs c).1 (callArgs c).2) hinv2
        (by simpa using hnp)
      dsimp only
      have hexp : expectedErrCount m.errCount (c :: cs) =
          expectedErrCount (commitV2 m (callArgs c).1 (callArgs c).2).errCount cs := by
        cases c with
        | SetReady => simp [expectedErrCount, commitV2, ecUpdate, callArgs]
        | SetError e =>
          simp [expectedErrCount, commitV2, ecUpdate, callArgs]
          rw [satIncr_eq_min m.errCount hinv.2.1]
        | Stop => simp [expectedErrCount, commitV2, ecUpdate, callArgs]
      rw [hexp]
      exact hrec

/-- Witness for C4: two consecutive `SetError` calls from a fresh monitor
leave the error count at 2. -/
theorem claim4_err_count_witness :
    ErrCountV2 (runV2 freshV2
        [Call.SetError (GoErr.simple ("e")), Call.SetError (GoErr.simple ("e"))]).1 =
      expectedErrCount 0
        [Call.SetError (GoErr.simple ("e")), Call.SetError (GoErr.simple ("e"))] ∧
    ErrCountV2 (runV2 freshV2
        [Call.SetError (GoErr.simple ("e")), Call.SetError (GoErr.simple ("e"))]).1 = 2 := by
  constructor
  · exact claim4_err_count freshV2
      [Call.SetError (GoErr.simple ("e")), Call.SetError (GoErr.simple ("e"))]
      (by constructor <;> simp [freshV2, maxInt]) (by decide)
  · decide

theorem stateChangedLoop_spec (rest : Services) :
    ∀ (allStopped anyStopped : Bool) (errs : List (String × GoErr)),
    stateChangedLoop rest allStopped anyStopped errs =
      if rest.any (fun p => p.2.state == GState.Initializing) then none
      else if (errs ++ erroringMembers rest) ≠ [] then
        some (.setError (.aggregate (errs ++ erroringMembers rest)))
      else if allStopped && rest.all (fun p => p.2.state == GState.Stopped) then
        some .stop
      else if anyStopped || rest.any (fun p => p.2.state == GState.Stopped) then
        some (.setError .stoppedServices)
      else some .setReady := by
  induction rest with
  | nil =>
    intro aS anyS errs
    simp [stateChangedLoop, erroringMembers, List.length_pos]
  | cons p rest ih =>
    intro aS anyS errs
    obtain ⟨label, sst, serr⟩ := p
    cases sst with
    | Initializing =>
      simp [stateChangedLoop]
    | Ready =>
      simp only [stateChangedLoop]
      rw [ih]
      simp only [erroringMembers, List.any_cons, List.all_cons, List.filterMap_cons]
      simp
      try rfl
    | Error =>
      simp only [stateChangedLoop]
      rw [ih]
      simp only [erroringMembers, List.any_cons, List.all_cons, List.filterMap_cons]
      simp [List.append_assoc]
      try rfl
    | Stopped =>
      simp only [stateChangedLoop]
      rw [ih]
      simp only [erroringMembers, List.any_cons, List.all_cons, List.filterMap_cons]
      simp
      try rfl

/-- C1 (amended): `stateChanged` computes exactly the declarative policy
`overallAction` — no update for an empty collection or whenever any member is
`Initializing` (even if some members err), otherwise `Error` with the
aggregate error enumerating the erroring members by label, otherwise
`Stopped` when all members are stopped, otherwise the partial-shutdown error
when some (but not all) are stopped, otherwise `Ready`. -/
theorem claim1_recompute_policy (svcs : Services) :
    stateChanged svcs = overallAction svcs := by
  cases svcs with
  | nil => rfl
  | cons p rest =>
    rw [stateChanged, stateChangedLoop_spec, overallAction]
    simp [List.length_pos]
    try rfl

/-- The two-member collection on which `stateChanged` and the claim's clause
order disagree: member `a` is erroring, member `b` is still initializing. -/
def c1ex : Services :=
  [("a", { state := GState.Error, err := GoErr.simple ("boom") }),
   ("b", { state := GState.Initializing, err := GoErr.nil })]

/-- C1 (counterexample): on `c1ex` the claim's clause order (any erroring
member makes the composite `Error`) demands the aggregate error, but the
code performs no update at all: the `Initializing` member makes the loop
return before the error check is ever reached. -/
theorem claim1_counterexample :
    stateChanged c1ex = none ∧
    claimRecomputePolicy c1ex =
      some (CompositeAction.setError
        (CompErr.aggregate [("a", GoErr.simple ("boom"))])) := by
  constructor <;> rfl

/-- C8: `CollectionError.Error` renders one entry per erroring member —
the sorted line list is a permutation of the per-member `label: text`
strings — in sorted order, and the rendering is a function of the member-set
only: any two `CollectionError` values whose entry lists are permutations of
one another (the same map contents under different iteration orders) render
to the identical string. -/
theorem claim8_stable_rendering (ce ce1 ce2 : CollectionError) :
    (collectionErrorLines ce).Sorted (· ≤ ·) ∧
    (collectionErrorLines ce).Perm
      (ce.Errors.map fun p => p.1 ++ ": " ++ renderGoErr p.2) ∧
    (ce1.Errors.Perm ce2.Errors →
      collectionErrorMsg ce1 = collectionErrorMsg ce2) := by
  refine ⟨List.sorted_mergeSort' _, List.mergeSort_perm _ _, fun hp => ?_⟩
  have hlines : collectionErrorLines ce1 = collectionErrorLines ce2 := by
    apply List.eq_of_perm_of_sorted
      ((List.mergeSort_perm _ _).trans
        ((hp.map fun p => p.1 ++ ": " ++ renderGoErr p.2).trans
          (List.mergeSort_perm _ _).symm))
      (List.sorted_mergeSort' _) (List.sorted_mergeSort' _)
  rw [collectionErrorMsg, collectionErrorMsg, hlines]

/-- Witness for C8: two orderings of the same two-member error map render to
the same string. -/
theorem claim8_stable_rendering_witness :
    collectionErrorMsg
        { Errors := [("b", GoErr.simple ("y")), ("a", GoErr.simple ("x"))] } =
      collectionErrorMsg
        { Errors := [("a", GoErr.simple ("x")), ("b", GoErr.simple ("y"))] } :=
  (claim8_stable_rendering
      { Errors := [("b", GoErr.simple ("y")), ("a", GoErr.simple ("x"))] }
      { Errors := [("b", GoErr.simple ("y")), ("a", GoErr.simple ("x"))] }
      { Errors := [("a", GoErr.simple ("x")), ("b", GoErr.simple ("y"))] }).2.2
    (List.Perm.swap ("a", GoErr.simple ("x")) ("b", GoErr.simple ("y")) [])
